import Mathlib

/-!
Shallow embedding of `src/server.py` (Polymythic/MCPServerGithub): a FastAPI
gateway exposing GitHub operations.  Each Python handler wraps its body in
`try/except Exception` and converts any failure into an
`HTTPException(status_code=500, detail=...)`.  The PyGithub client is modelled
as a structure of capabilities, each returning `Except String α` (an exception
message or a result object).  Handlers return both their HTTP-level result and
the list of outbound calls they issued, in order, so that claims about which
external calls are made (and with which arguments) are statable.
-/

set_option maxHeartbeats 1000000

/-- A JSON-like value, mirroring the Python dicts the handlers return. -/
inductive JVal where
  | null : JVal
  | str (s : String) : JVal
  | nat (n : Nat) : JVal
  | int (n : Int) : JVal
  | bool (b : Bool) : JVal
  | arr (xs : List JVal) : JVal
  | obj (fields : List (String × JVal)) : JVal

/-- `fastapi.HTTPException(status_code=..., detail=...)` as raised by the handlers. -/
structure HTTPException where
  status_code : Nat
  detail : String
deriving DecidableEq

/-- One outbound call against the external GitHub API, with the arguments the
handler passed at the call site.  Repo-level calls are tagged with the
`repo_name` the handler resolved the repository by. -/
inductive Event where
  | get_user
  | get_repo (name : String)
  | get_organization (name : String)
  | get_rate_limit
  | user_get_repos
  | user_create_repo (name descr : String) (priv : Bool)
  | org_create_repo (org name descr : String) (priv : Bool)
  | org_get_teams (org : String)
  | repo_get_branches (repo : String)
  | repo_get_branch (repo branch : String)
  | repo_create_git_ref (repo ref sha : String)
  | repo_get_pulls (repo state : String)
  | repo_create_pull (repo title body head base : String)
  | repo_get_topics (repo : String)
  | repo_get_issues (repo : String)
  | repo_create_issue (repo title body : String) (assignees labels : List String)
  | repo_get_issue (repo : String) (n : Int)
  | issue_create_comment (repo : String) (n : Int) (text : String)
  | issue_edit_state (repo : String) (n : Int) (state : String)
  | repo_get_pull (repo : String) (n : Int)
  | pr_merge (repo : String) (n : Int) (msg : String)
  | pr_edit_state (repo : String) (n : Int) (state : String)
  | pr_create_issue_comment (repo : String) (n : Int) (text : String)
  | pr_get_reviews (repo : String) (n : Int)
  | repo_get_git_ref (repo ref : String)
  | ref_delete (repo ref : String)
  | repo_compare (repo base head : String)
  | repo_get_hooks (repo : String)
  | repo_get_collaborators (repo : String)
  | repo_add_to_collaborators (repo user perm : String)
  | repo_remove_from_collaborators (repo user : String)
deriving DecidableEq

/-- Python truthiness of an `Optional[str]`: `None` and `""` are falsy.
`pyStrTruthy o = some s` exactly when the value is a non-empty string `s`. -/
def pyStrTruthy (o : Option String) : Option String :=
  match o with
  | none => none
  | some s => if s = "" then none else some s

/-- Python `x or d` for `x : Optional[str]`: `None` and `""` give `d`. -/
def pyStrOr (o : Option String) (d : String) : String :=
  match pyStrTruthy o with
  | some s => s
  | none => d

/-- Python `x or []` for `x : Optional[List[str]]` (empty list is falsy, but
the default is also the empty list, so this is plain default-filling). -/
def pyListOr (o : Option (List String)) : List String :=
  match o with
  | none => []
  | some l => l

/-- A handler body computation: an exception-or-value plus the ordered trace of
outbound calls it issued. -/
def GhM (α : Type) : Type := Except String α × List Event

/-- Sequencing of handler-body steps: a raised exception aborts the rest of the
body (as in Python), and traces accumulate in order. -/
def GhM.bind {α β : Type} (x : GhM α) (f : α → GhM β) : GhM β :=
  match x with
  | (.error e, t) => (.error e, t)
  | (.ok a, t) =>
    match f a with
    | (r, t2) => (r, t ++ t2)

/-- A single outbound call: its result comes from the client capability and it
is recorded in the trace. -/
def call {α : Type} (e : Event) (r : Except String α) : GhM α := (r, [e])

/-- A pure step of a handler body (no outbound call). -/
def ret {α : Type} (a : α) : GhM α := (.ok a, [])

/-- What a handler returns at the HTTP level: a JSON body or an
`HTTPException`, together with the trace of outbound calls. -/
def HandlerResult : Type := Except HTTPException JVal × List Event

/-- The `try: ... except Exception as e: raise HTTPException(500, pre + str(e))`
shape shared by every GitHub handler in `server.py`; `pre` is the literal
f-string prefix up to and including `": "`. -/
def wrapPre (pre : String) (x : GhM JVal) : HandlerResult :=
  match x with
  | (.ok v, t) => (.ok v, t)
  | (.error e, t) => (.error ⟨500, pre ++ e⟩, t)

/-- `Optional[str]`-valued attribute rendered into JSON (`None` → `null`). -/
def jOptStr (o : Option String) : JVal :=
  match o with
  | none => .null
  | some s => .str s

-- ## The PyGithub object model, restricted to the attributes server.py accesses

/-- `branch.commit` (only `.sha` is read). -/
structure CommitObj where
  sha : String

/-- A branch object: `.name` and `.commit.sha` are read. -/
structure Branch where
  name : String
  commit : CommitObj

/-- `pr.head` / `pr.base` (only `.ref` is read). -/
structure RefInfo where
  ref : String

/-- `review.user` (only `.login` is read); also the element type of
`repo.get_collaborators()`. -/
structure NamedUser where
  login : String

/-- A review object: `.user.login`, `.state`, `.body` are read. -/
structure Review where
  user : NamedUser
  state : String
  body : String

/-- An issue comment object (only `.html_url` is read). -/
structure CommentObj where
  html_url : String

/-- A pull-request object with the attributes and methods server.py uses. -/
structure PullRequest where
  id : Nat
  title : String
  head : RefInfo
  base : RefInfo
  html_url : String
  merge : String → Except String Unit
  edit : String → Except String Unit
  create_issue_comment : String → Except String CommentObj
  get_reviews : Except String (List Review)

/-- An issue object with the attributes and methods server.py uses. -/
structure Issue where
  number : Nat
  title : String
  state : String
  html_url : String
  create_comment : String → Except String CommentObj
  edit : String → Except String Unit

/-- A git reference object (only `.delete()` is called). -/
structure GitRef where
  delete : Except String Unit

/-- `repo.compare(base, head)`: `.ahead_by`, `.behind_by`, `.commits` are read. -/
structure Comparison where
  ahead_by : Nat
  behind_by : Nat
  commits : List CommitObj

/-- A webhook object: `.id` and `.config.get('url')` are read (`.get` yields
`None` when the key is missing, hence the `Option`). -/
structure Hook where
  id : Nat
  config_url : Option String

/-- An element of `get_user().get_repos()` (only `.full_name` is read). -/
structure RepoSummary where
  full_name : String

/-- The result of `create_repo` (only `.html_url` is read). -/
structure CreatedRepo where
  html_url : String

/-- `rate.core`: `.limit`, `.remaining`, `.reset` are read; `reset` is stored
already stringified, as `str(rate.core.reset)` renders it. -/
structure RateCore where
  limit : Nat
  remaining : Nat
  reset : String

/-- `github_client.get_rate_limit()` result (only `.core` is read). -/
structure RateLimit where
  core : RateCore

/-- A repository object offering the capabilities server.py invokes.  The
`default_branch` field records the repository's configured default branch (a
PyGithub attribute); `server.py` never reads it. -/
structure Repo where
  name : String
  full_name : String
  description : Option String
  private_ : Bool
  default_branch : String
  get_topics : Except String (List String)
  get_branches : Except String (List Branch)
  get_branch : String → Except String Branch
  create_git_ref : String → String → Except String Unit
  get_pulls : String → Except String (List PullRequest)
  create_pull : String → String → String → String → Except String PullRequest
  get_issues : Except String (List Issue)
  create_issue : String → String → List String → List String → Except String Issue
  get_issue : Int → Except String Issue
  get_pull : Int → Except String PullRequest
  get_git_ref : String → Except String GitRef
  compare : String → String → Except String Comparison
  get_hooks : Except String (List Hook)
  get_collaborators : Except String (List NamedUser)
  add_to_collaborators : String → String → Except String Unit
  remove_from_collaborators : String → Except String Unit

/-- The authenticated user object (`get_user()` result). -/
structure User where
  login : String
  name : Option String
  public_repos : Nat
  get_repos : Except String (List RepoSummary)
  create_repo : String → String → Bool → Except String CreatedRepo

/-- An organization object. -/
structure Org where
  create_repo : String → String → Bool → Except String CreatedRepo
  get_teams : Except String (List String)

/-- The `github.Github(token)` client handle. -/
structure GithubClient where
  get_user : Except String User
  get_repo : String → Except String Repo
  get_organization : String → Except String Org
  get_rate_limit : Except String RateLimit

-- ## Request models (the pydantic BaseModel classes)

structure BranchActionRequest where
  repo_name : String
  branch_name : String
  base_branch : Option String  -- pydantic default: None

structure PullRequestRequest where
  repo_name : String
  title : String
  body : Option String  -- pydantic default: ""
  head : String
  base : String

structure RepoCreateRequest where
  name : String
  description : Option String  -- pydantic default: ""
  private_ : Bool  -- pydantic default: False
  org_name : Option String  -- pydantic default: None

structure IssueCreateRequest where
  repo_name : String
  title : String
  body : Option String  -- pydantic default: ""
  assignees : Option (List String)  -- pydantic default: []
  labels : Option (List String)  -- pydantic default: []

structure IssueCommentRequest where
  repo_name : String
  issue_number : Int
  comment : String

structure IssueStateRequest where
  repo_name : String
  issue_number : Int
  state : String

structure PRMergeRequest where
  repo_name : String
  pr_number : Int
  commit_message : Option String  -- pydantic default: None

structure PRCloseRequest where
  repo_name : String
  pr_number : Int

structure BranchDeleteRequest where
  repo_name : String
  branch_name : String

structure BranchCompareRequest where
  repo_name : String
  base : String
  head : String

structure CollaboratorRequest where
  repo_name : String
  username : String
  permission : Option String  -- pydantic default: "push"

structure PRCommentRequest where
  repo_name : String
  pr_number : Int
  comment : String

-- ## The handlers, one per route in server.py, in source order

/-- `GET /` -/
def read_root : HandlerResult :=
  (.ok (.obj [("message", .str "Welcome to the MCP GitHub Server!")]), [])

/-- `GET /github/me` — note the distinct error prefix in the source. -/
def github_me (c : GithubClient) : HandlerResult :=
  wrapPre "GitHub authentication failed: "
    (GhM.bind (call .get_user c.get_user) (fun user =>
      ret (.obj [("login", .str user.login), ("name", jOptStr user.name),
                 ("public_repos", .nat user.public_repos)])))

/-- `GET /github/branches` -/
def list_branches (c : GithubClient) (repo_name : String) : HandlerResult :=
  wrapPre "Failed to list branches: "
    (GhM.bind (call (.get_repo repo_name) (c.get_repo repo_name)) (fun repo =>
      GhM.bind (call (.repo_get_branches repo_name) repo.get_branches) (fun branches =>
        ret (.obj [("branches", .arr (branches.map (fun b => .str b.name)))]))))

/-- `POST /github/branch/create` — `base = req.base_branch or
repo.get_branch("main").name`; the `or` short-circuits on a truthy
(non-empty) `base_branch`. -/
def create_branch (c : GithubClient) (req : BranchActionRequest) : HandlerResult :=
  wrapPre "Failed to create branch: "
    (GhM.bind (call (.get_repo req.repo_name) (c.get_repo req.repo_name)) (fun repo =>
      GhM.bind
        (match pyStrTruthy req.base_branch with
         | some b => ret b
         | none =>
           GhM.bind (call (.repo_get_branch req.repo_name "main") (repo.get_branch "main"))
             (fun mb => ret mb.name))
        (fun base =>
          GhM.bind (call (.repo_get_branch req.repo_name base) (repo.get_branch base))
            (fun source =>
              GhM.bind
                (call (.repo_create_git_ref req.repo_name ("refs/heads/" ++ req.branch_name)
                        source.commit.sha)
                  (repo.create_git_ref ("refs/heads/" ++ req.branch_name) source.commit.sha))
                (fun _ =>
                  ret (.obj [("message", .str ("Branch '" ++ req.branch_name ++
                    "' created from '" ++ base ++ "'"))]))))))

/-- `GET /github/pull-requests` — requests `state="open"` only. -/
def list_pull_requests (c : GithubClient) (repo_name : String) : HandlerResult :=
  wrapPre "Failed to list pull requests: "
    (GhM.bind (call (.get_repo repo_name) (c.get_repo repo_name)) (fun repo =>
      GhM.bind (call (.repo_get_pulls repo_name "open") (repo.get_pulls "open")) (fun pulls =>
        ret (.obj [("pull_requests", .arr (pulls.map (fun pr =>
          .obj [("id", .nat pr.id), ("title", .str pr.title),
                ("head", .str pr.head.ref), ("base", .str pr.base.ref)])))]))))

/-- `POST /github/pull-request/create` -/
def create_pull_request (c : GithubClient) (req : PullRequestRequest) : HandlerResult :=
  wrapPre "Failed to create pull request: "
    (GhM.bind (call (.get_repo req.repo_name) (c.get_repo req.repo_name)) (fun repo =>
      GhM.bind
        (call (.repo_create_pull req.repo_name req.title (pyStrOr req.body "") req.head req.base)
          (repo.create_pull req.title (pyStrOr req.body "") req.head req.base))
        (fun pr =>
          ret (.obj [("message", .str "Pull request created"), ("url", .str pr.html_url)]))))

/-- `GET /github/repos` -/
def list_repos (c : GithubClient) : HandlerResult :=
  wrapPre "Failed to list repositories: "
    (GhM.bind (call .get_user c.get_user) (fun user =>
      GhM.bind (call .user_get_repos user.get_repos) (fun repos =>
        ret (.obj [("repositories", .arr (repos.map (fun r => .str r.full_name)))]))))

/-- `GET /github/repo` -/
def get_repo (c : GithubClient) (repo_name : String) : HandlerResult :=
  wrapPre "Failed to get repository: "
    (GhM.bind (call (.get_repo repo_name) (c.get_repo repo_name)) (fun repo =>
      GhM.bind (call (.repo_get_topics repo_name) repo.get_topics) (fun topics =>
        ret (.obj [("name", .str repo.name), ("full_name", .str repo.full_name),
                   ("description", jOptStr repo.description), ("private", .bool repo.private_),
                   ("topics", .arr (topics.map (fun t => .str t)))]))))

/-- `POST /github/repo/create` — `if req.org_name:` is Python truthiness, so
`None` and `""` both take the user branch. -/
def create_repo (c : GithubClient) (req : RepoCreateRequest) : HandlerResult :=
  wrapPre "Failed to create repository: "
    (GhM.bind
      (match pyStrTruthy req.org_name with
       | some o =>
         GhM.bind (call (.get_organization o) (c.get_organization o)) (fun org =>
           call (.org_create_repo o req.name (pyStrOr req.description "") req.private_)
             (org.create_repo req.name (pyStrOr req.description "") req.private_))
       | none =>
         GhM.bind (call .get_user c.get_user) (fun user =>
           call (.user_create_repo req.name (pyStrOr req.description "") req.private_)
             (user.create_repo req.name (pyStrOr req.description "") req.private_)))
      (fun repo =>
        ret (.obj [("message", .str "Repository created"), ("url", .str repo.html_url)])))

/-- `GET /github/issues` -/
def list_issues (c : GithubClient) (repo_name : String) : HandlerResult :=
  wrapPre "Failed to list issues: "
    (GhM.bind (call (.get_repo repo_name) (c.get_repo repo_name)) (fun repo =>
      GhM.bind (call (.repo_get_issues repo_name) repo.get_issues) (fun issues =>
        ret (.obj [("issues", .arr (issues.map (fun i =>
          .obj [("number", .nat i.number), ("title", .str i.title),
                ("state", .str i.state)])))]))))

/-- `POST /github/issue/create` -/
def create_issue (c : GithubClient) (req : IssueCreateRequest) : HandlerResult :=
  wrapPre "Failed to create issue: "
    (GhM.bind (call (.get_repo req.repo_name) (c.get_repo req.repo_name)) (fun repo =>
      GhM.bind
        (call (.repo_create_issue req.repo_name req.title (pyStrOr req.body "")
                (pyListOr req.assignees) (pyListOr req.labels))
          (repo.create_issue req.title (pyStrOr req.body "")
            (pyListOr req.assignees) (pyListOr req.labels)))
        (fun issue =>
          ret (.obj [("message", .str "Issue created"), ("number", .nat issue.number),
                     ("url", .str issue.html_url)]))))

/-- `POST /github/issue/comment` -/
def comment_issue (c : GithubClient) (req : IssueCommentRequest) : HandlerResult :=
  wrapPre "Failed to comment on issue: "
    (GhM.bind (call (.get_repo req.repo_name) (c.get_repo req.repo_name)) (fun repo =>
      GhM.bind (call (.repo_get_issue req.repo_name req.issue_number)
                 (repo.get_issue req.issue_number)) (fun issue =>
        GhM.bind (call (.issue_create_comment req.repo_name req.issue_number req.comment)
                   (issue.create_comment req.comment)) (fun comment =>
          ret (.obj [("message", .str "Comment added"), ("url", .str comment.html_url)])))))

/-- `POST /github/issue/state` — `req.state` is passed through verbatim. -/
def set_issue_state (c : GithubClient) (req : IssueStateRequest) : HandlerResult :=
  wrapPre "Failed to set issue state: "
    (GhM.bind (call (.get_repo req.repo_name) (c.get_repo req.repo_name)) (fun repo =>
      GhM.bind (call (.repo_get_issue req.repo_name req.issue_number)
                 (repo.get_issue req.issue_number)) (fun issue =>
        GhM.bind (call (.issue_edit_state req.repo_name req.issue_number req.state)
                   (issue.edit req.state)) (fun _ =>
          ret (.obj [("message", .str ("Issue state set to " ++ req.state))])))))

/-- `POST /github/pr/merge` — `req.commit_message or "Merged by MCP server"`. -/
def merge_pr (c : GithubClient) (req : PRMergeRequest) : HandlerResult :=
  wrapPre "Failed to merge pull request: "
    (GhM.bind (call (.get_repo req.repo_name) (c.get_repo req.repo_name)) (fun repo =>
      GhM.bind (call (.repo_get_pull req.repo_name req.pr_number)
                 (repo.get_pull req.pr_number)) (fun pr =>
        GhM.bind (call (.pr_merge req.repo_name req.pr_number
                         (pyStrOr req.commit_message "Merged by MCP server"))
                   (pr.merge (pyStrOr req.commit_message "Merged by MCP server"))) (fun _ =>
          ret (.obj [("message", .str "Pull request merged")])))))

/-- `POST /github/pr/close` -/
def close_pr (c : GithubClient) (req : PRCloseRequest) : HandlerResult :=
  wrapPre "Failed to close pull request: "
    (GhM.bind (call (.get_repo req.repo_name) (c.get_repo req.repo_name)) (fun repo =>
      GhM.bind (call (.repo_get_pull req.repo_name req.pr_number)
                 (repo.get_pull req.pr_number)) (fun pr =>
        GhM.bind (call (.pr_edit_state req.repo_name req.pr_number "closed")
                   (pr.edit "closed")) (fun _ =>
          ret (.obj [("message", .str "Pull request closed")])))))

/-- `POST /github/pr/comment` -/
def comment_pr (c : GithubClient) (req : PRCommentRequest) : HandlerResult :=
  wrapPre "Failed to comment on pull request: "
    (GhM.bind (call (.get_repo req.repo_name) (c.get_repo req.repo_name)) (fun repo =>
      GhM.bind (call (.repo_get_pull req.repo_name req.pr_number)
                 (repo.get_pull req.pr_number)) (fun pr =>
        GhM.bind (call (.pr_create_issue_comment req.repo_name req.pr_number req.comment)
                   (pr.create_issue_comment req.comment)) (fun comment =>
          ret (.obj [("message", .str "Comment added"), ("url", .str comment.html_url)])))))

/-- `GET /github/pr/reviews` -/
def list_pr_reviews (c : GithubClient) (repo_name : String) (pr_number : Int) : HandlerResult :=
  wrapPre "Failed to list pull request reviews: "
    (GhM.bind (call (.get_repo repo_name) (c.get_repo repo_name)) (fun repo =>
      GhM.bind (call (.repo_get_pull repo_name pr_number) (repo.get_pull pr_number)) (fun pr =>
        GhM.bind (call (.pr_get_reviews repo_name pr_number) pr.get_reviews) (fun reviews =>
          ret (.obj [("reviews", .arr (reviews.map (fun r =>
            .obj [("user", .str r.user.login), ("state", .str r.state),
                  ("body", .str r.body)])))])))))

/-- `POST /github/branch/delete` -/
def delete_branch (c : GithubClient) (req : BranchDeleteRequest) : HandlerResult :=
  wrapPre "Failed to delete branch: "
    (GhM.bind (call (.get_repo req.repo_name) (c.get_repo req.repo_name)) (fun repo =>
      GhM.bind (call (.repo_get_git_ref req.repo_name ("heads/" ++ req.branch_name))
                 (repo.get_git_ref ("heads/" ++ req.branch_name))) (fun ref =>
        GhM.bind (call (.ref_delete req.repo_name ("heads/" ++ req.branch_name)) ref.delete)
          (fun _ =>
            ret (.obj [("message", .str ("Branch '" ++ req.branch_name ++ "' deleted"))])))))

/-- `POST /github/branch/compare` -/
def compare_branches (c : GithubClient) (req : BranchCompareRequest) : HandlerResult :=
  wrapPre "Failed to compare branches: "
    (GhM.bind (call (.get_repo req.repo_name) (c.get_repo req.repo_name)) (fun repo =>
      GhM.bind (call (.repo_compare req.repo_name req.base req.head)
                 (repo.compare req.base req.head)) (fun comparison =>
        ret (.obj [("ahead_by", .nat comparison.ahead_by),
                   ("behind_by", .nat comparison.behind_by),
                   ("commits", .arr (comparison.commits.map (fun co => .str co.sha)))]))))

/-- `GET /github/webhooks` -/
def list_webhooks (c : GithubClient) (repo_name : String) : HandlerResult :=
  wrapPre "Failed to list webhooks: "
    (GhM.bind (call (.get_repo repo_name) (c.get_repo repo_name)) (fun repo =>
      GhM.bind (call (.repo_get_hooks repo_name) repo.get_hooks) (fun hooks =>
        ret (.obj [("webhooks", .arr (hooks.map (fun h =>
          .obj [("id", .nat h.id), ("url", jOptStr h.config_url)])))]))))

/-- `GET /github/collaborators` -/
def list_collaborators (c : GithubClient) (repo_name : String) : HandlerResult :=
  wrapPre "Failed to list collaborators: "
    (GhM.bind (call (.get_repo repo_name) (c.get_repo repo_name)) (fun repo =>
      GhM.bind (call (.repo_get_collaborators repo_name) repo.get_collaborators) (fun users =>
        ret (.obj [("collaborators", .arr (users.map (fun u => .str u.login)))]))))

/-- `POST /github/collaborator/add` — `req.permission or "push"` in both the
capability call and the success message. -/
def add_collaborator (c : GithubClient) (req : CollaboratorRequest) : HandlerResult :=
  wrapPre "Failed to add collaborator: "
    (GhM.bind (call (.get_repo req.repo_name) (c.get_repo req.repo_name)) (fun repo =>
      GhM.bind (call (.repo_add_to_collaborators req.repo_name req.username
                       (pyStrOr req.permission "push"))
                 (repo.add_to_collaborators req.username (pyStrOr req.permission "push")))
        (fun _ =>
          ret (.obj [("message", .str ("Collaborator '" ++ req.username ++
            "' added with permission '" ++ pyStrOr req.permission "push" ++ "'"))]))))

/-- `POST /github/collaborator/remove` -/
def remove_collaborator (c : GithubClient) (req : CollaboratorRequest) : HandlerResult :=
  wrapPre "Failed to remove collaborator: "
    (GhM.bind (call (.get_repo req.repo_name) (c.get_repo req.repo_name)) (fun repo =>
      GhM.bind (call (.repo_remove_from_collaborators req.repo_name req.username)
                 (repo.remove_from_collaborators req.username)) (fun _ =>
        ret (.obj [("message", .str ("Collaborator '" ++ req.username ++ "' removed"))]))))

/-- `GET /github/teams` -/
def list_teams (c : GithubClient) (org_name : String) : HandlerResult :=
  wrapPre "Failed to list teams: "
    (GhM.bind (call (.get_organization org_name) (c.get_organization org_name)) (fun org =>
      GhM.bind (call (.org_get_teams org_name) org.get_teams) (fun teams =>
        ret (.obj [("teams", .arr (teams.map (fun t => .str t)))]))))

/-- `GET /github/rate-limit` -/
def rate_limit (c : GithubClient) : HandlerResult :=
  wrapPre "Failed to get rate limit: "
    (GhM.bind (call .get_rate_limit c.get_rate_limit) (fun rate =>
      ret (.obj [("core", .obj [("limit", .nat rate.core.limit),
                                ("remaining", .nat rate.core.remaining),
                                ("reset", .str rate.core.reset)])])))

/-- `GET /health` — touches no client state. -/
def health_check : HandlerResult :=
  (.ok (.obj [("status", .str "ok")]), [])

/-- `GET /version` — touches no client state. -/
def version : HandlerResult :=
  (.ok (.obj [("version", .str "0.1.0")]), [])

-- ## Write/read classification of outbound calls

/-- Whether an outbound call mutates state on the external API (a create,
edit, merge, delete or invite), as opposed to a read/resolution call. -/
def Event.isWrite : Event → Bool
  | .user_create_repo _ _ _ => true
  | .org_create_repo _ _ _ _ => true
  | .repo_create_git_ref _ _ _ => true
  | .repo_create_pull _ _ _ _ _ => true
  | .repo_create_issue _ _ _ _ _ => true
  | .issue_create_comment _ _ _ => true
  | .issue_edit_state _ _ _ => true
  | .pr_merge _ _ _ => true
  | .pr_edit_state _ _ _ => true
  | .pr_create_issue_comment _ _ _ => true
  | .ref_delete _ _ => true
  | .repo_add_to_collaborators _ _ _ => true
  | .repo_remove_from_collaborators _ _ => true
  | _ => false

/-- Number of state-changing outbound calls in a trace. -/
def writeCount (tr : List Event) : Nat := (tr.filter Event.isWrite).length

-- ## Concrete sample worlds used by witnesses and counterexamples

def sampleComment : CommentObj := ⟨"http://example/comment/1"⟩

def mainBranch : Branch := ⟨"main", ⟨"sha-main-1"⟩⟩

def devBranch : Branch := ⟨"dev", ⟨"sha-dev-1"⟩⟩

def masterBranch : Branch := ⟨"master", ⟨"sha-master-1"⟩⟩

def samplePR : PullRequest :=
  ⟨7, "a pr", ⟨"feature"⟩, ⟨"main"⟩, "http://example/pr/7",
   fun _ => .ok (), fun _ => .ok (), fun _ => .ok sampleComment, .ok []⟩

def sampleIssue : Issue :=
  ⟨5, "an issue", "open", "http://example/issue/5",
   fun _ => .ok sampleComment, fun _ => .ok ()⟩

def sampleComparison : Comparison := ⟨2, 1, [⟨"sha-a"⟩, ⟨"sha-b"⟩]⟩

/-- A repository whose configured default branch is "master" while a branch
named "main" also exists; every capability succeeds. -/
def sampleRepo : Repo where
  name := "r"
  full_name := "o/r"
  description := some "a repo"
  private_ := false
  default_branch := "master"
  get_topics := .ok ["tool"]
  get_branches := .ok [mainBranch, devBranch, masterBranch]
  get_branch := fun b =>
    if b = "main" then .ok mainBranch
    else if b = "dev" then .ok devBranch
    else if b = "master" then .ok masterBranch
    else .error ("Branch not found: " ++ b)
  create_git_ref := fun _ _ => .ok ()
  get_pulls := fun _ => .ok [samplePR]
  create_pull := fun _ _ _ _ => .ok samplePR
  get_issues := .ok [sampleIssue]
  create_issue := fun _ _ _ _ => .ok sampleIssue
  get_issue := fun _ => .ok sampleIssue
  get_pull := fun _ => .ok samplePR
  get_git_ref := fun _ => .ok ⟨.ok ()⟩
  compare := fun _ _ => .ok sampleComparison
  get_hooks := .ok [⟨1, some "http://example/hook"⟩]
  get_collaborators := .ok [⟨"alice"⟩]
  add_to_collaborators := fun _ _ => .ok ()
  remove_from_collaborators := fun _ => .ok ()

def sampleCreated : CreatedRepo := ⟨"http://example/new-repo"⟩

def sampleUser : User :=
  ⟨"me", some "Me Myself", 3, .ok [⟨"o/r"⟩], fun _ _ _ => .ok sampleCreated⟩

def sampleOrg : Org := ⟨fun _ _ _ => .ok sampleCreated, .ok ["team-a"]⟩

/-- A client over `sampleRepo` on which every capability succeeds. -/
def sampleClient : GithubClient where
  get_user := .ok sampleUser
  get_repo := fun n => if n = "o/r" then .ok sampleRepo else .error ("Not Found: " ++ n)
  get_organization := fun n => if n = "acme" then .ok sampleOrg else .error "org not found"
  get_rate_limit := .ok ⟨⟨5000, 4990, "2026-01-01 00:00:00"⟩⟩

/-- A client on which every capability raises "boom". -/
def failClient : GithubClient where
  get_user := .error "boom"
  get_repo := fun _ => .error "boom"
  get_organization := fun _ => .error "boom"
  get_rate_limit := .error "boom"

-- ## Shared lemmas

/-- Any handler body wrapped by `wrapPre pre` either succeeds or yields one
HTTP 500 whose detail is `pre` followed by the underlying message. -/
theorem wrapPre_ok_or_prefixed (pre : String) (x : GhM JVal) :
    (∃ v, (wrapPre pre x).1 = .ok v) ∨
      ∃ m, (wrapPre pre x).1 = .error ⟨500, pre ++ m⟩ := by
  rcases x with ⟨r, t⟩
  cases r with
  | ok v => exact .inl ⟨v, rfl⟩
  | error e => exact .inr ⟨e, rfl⟩

-- ## Claim theorems

/-- C10: `GET /health` and `GET /version` always succeed, return exactly
`{"status": "ok"}` and `{"version": "0.1.0"}`, and issue no outbound call;
in the source neither handler touches the client, so the embedded handlers
take no client argument at all and the result is a fixed value. -/
theorem health_version_static :
    health_check = (.ok (.obj [("status", .str "ok")]), []) ∧
      version = (.ok (.obj [("version", .str "0.1.0")]), []) :=
  ⟨rfl, rfl⟩

/-- C4: a successful compare-branches request returns exactly the `ahead_by`
and `behind_by` counts and the commit SHA list of the resolved comparison, in
order and unmodified, and issues exactly the two calls resolve-repo then
compare. -/
theorem compare_branches_exact (c : GithubClient) (req : BranchCompareRequest)
    (repo : Repo) (cmp : Comparison)
    (hr : c.get_repo req.repo_name = .ok repo)
    (hc : repo.compare req.base req.head = .ok cmp) :
    compare_branches c req =
      (.ok (.obj [("ahead_by", .nat cmp.ahead_by), ("behind_by", .nat cmp.behind_by),
                  ("commits", .arr (cmp.commits.map (fun co => .str co.sha)))]),
       [.get_repo req.repo_name, .repo_compare req.repo_name req.base req.head]) := by
  simp [compare_branches, wrapPre, GhM.bind, call, ret, hr, hc]

/-- Witness for C4 at a concrete client and request. -/
theorem compare_branches_exact_witness :
    compare_branches sampleClient ⟨"o/r", "main", "feature"⟩ =
      (.ok (.obj [("ahead_by", .nat 2), ("behind_by", .nat 1),
                  ("commits", .arr [.str "sha-a", .str "sha-b"])]),
       [.get_repo "o/r", .repo_compare "o/r" "main" "feature"]) :=
  compare_branches_exact sampleClient ⟨"o/r", "main", "feature"⟩ sampleRepo
    sampleComparison rfl rfl

/-- C6: a successful list-pull-requests request asks the repository for open
pull requests only (the single `get_pulls` call carries state `"open"`), and
returns one `{id, title, head, base}` object per returned pull request, where
`head`/`base` are the branch names of the head and base refs. -/
theorem list_pull_requests_open_only (c : GithubClient) (rn : String)
    (repo : Repo) (prs : List PullRequest)
    (hr : c.get_repo rn = .ok repo)
    (hp : repo.get_pulls "open" = .ok prs) :
    list_pull_requests c rn =
      (.ok (.obj [("pull_requests", .arr (prs.map (fun pr =>
          .obj [("id", .nat pr.id), ("title", .str pr.title),
                ("head", .str pr.head.ref), ("base", .str pr.base.ref)])))]),
       [.get_repo rn, .repo_get_pulls rn "open"]) := by
  simp [list_pull_requests, wrapPre, GhM.bind, call, ret, hr, hp]

/-- Witness for C6 at a concrete client. -/
theorem list_pull_requests_open_only_witness :
    list_pull_requests sampleClient "o/r" =
      (.ok (.obj [("pull_requests", .arr [.obj [("id", .nat 7), ("title", .str "a pr"),
          ("head", .str "feature"), ("base", .str "main")]])]),
       [.get_repo "o/r", .repo_get_pulls "o/r" "open"]) :=
  list_pull_requests_open_only sampleClient "o/r" sampleRepo [samplePR] rfl rfl

/-- C5: the `state` string of a set-issue-state request is passed through
verbatim to the issue's edit capability — for an arbitrary string, with no
server-side inspection — and the handler's outcome is exactly the edit
capability's outcome (restrictions to "open"/"closed" can only come from the
external API itself). -/
theorem set_issue_state_passthrough (c : GithubClient) (req : IssueStateRequest)
    (repo : Repo) (issue : Issue)
    (hr : c.get_repo req.repo_name = .ok repo)
    (hi : repo.get_issue req.issue_number = .ok issue) :
    (set_issue_state c req).2 =
      [.get_repo req.repo_name, .repo_get_issue req.repo_name req.issue_number,
       .issue_edit_state req.repo_name req.issue_number req.state] ∧
    (issue.edit req.state = .ok () →
      (set_issue_state c req).1 =
        .ok (.obj [("message", .str ("Issue state set to " ++ req.state))])) ∧
    (∀ e, issue.edit req.state = .error e →
      (set_issue_state c req).1 = .error ⟨500, "Failed to set issue state: " ++ e⟩) := by
  refine ⟨?_, ?_, ?_⟩
  · rcases he : issue.edit req.state with e | u
    · simp [set_issue_state, wrapPre, GhM.bind, call, ret, hr, hi, he]
    · simp [set_issue_state, wrapPre, GhM.bind, call, ret, hr, hi, he]
  · intro he
    simp [set_issue_state, wrapPre, GhM.bind, call, ret, hr, hi, he]
  · intro e he
    simp [set_issue_state, wrapPre, GhM.bind, call, ret, hr, hi, he]

/-- Witness for C5 at a concrete client, with a state string that is neither
"open" nor "closed" still passed through verbatim. -/
theorem set_issue_state_passthrough_witness :
    (set_issue_state sampleClient ⟨"o/r", 5, "reopened"⟩).2 =
      [.get_repo "o/r", .repo_get_issue "o/r" 5, .issue_edit_state "o/r" 5 "reopened"] ∧
    (set_issue_state sampleClient ⟨"o/r", 5, "reopened"⟩).1 =
      .ok (.obj [("message", .str "Issue state set to reopened")]) :=
  ⟨(set_issue_state_passthrough sampleClient ⟨"o/r", 5, "reopened"⟩ sampleRepo
      sampleIssue rfl rfl).1,
   (set_issue_state_passthrough sampleClient ⟨"o/r", 5, "reopened"⟩ sampleRepo
      sampleIssue rfl rfl).2.1 rfl⟩

/-- C9: the merge capability is invoked with the literal commit message
"Merged by MCP server" when `commit_message` is omitted or null, and with the
supplied string unchanged when it is non-empty. -/
theorem merge_pr_commit_message (c : GithubClient) (req : PRMergeRequest)
    (repo : Repo) (pr : PullRequest)
    (hr : c.get_repo req.repo_name = .ok repo)
    (hp : repo.get_pull req.pr_number = .ok pr) :
    (merge_pr c req).2 =
      [.get_repo req.repo_name, .repo_get_pull req.repo_name req.pr_number,
       .pr_merge req.repo_name req.pr_number
         (pyStrOr req.commit_message "Merged by MCP server")] ∧
    (req.commit_message = none →
      pyStrOr req.commit_message "Merged by MCP server" = "Merged by MCP server") ∧
    (∀ m, req.commit_message = some m → m ≠ "" →
      pyStrOr req.commit_message "Merged by MCP server" = m) := by
  refine ⟨?_, ?_, ?_⟩
  · rcases hm : pr.merge (pyStrOr req.commit_message "Merged by MCP server") with e | u
    · simp [merge_pr, wrapPre, GhM.bind, call, ret, hr, hp, hm]
    · simp [merge_pr, wrapPre, GhM.bind, call, ret, hr, hp, hm]
  · intro h
    simp [pyStrOr, pyStrTruthy, h]
  · intro m h hm
    simp [pyStrOr, pyStrTruthy, h, hm]

/-- Witness for C9: with `commit_message = none` the merge call carries the
literal default message. -/
theorem merge_pr_commit_message_witness :
    (merge_pr sampleClient ⟨"o/r", 7, none⟩).2 =
      [.get_repo "o/r", .repo_get_pull "o/r" 7,
       .pr_merge "o/r" 7 "Merged by MCP server"] ∧
    pyStrOr (none : Option String) "Merged by MCP server" = "Merged by MCP server" :=
  ⟨(merge_pr_commit_message sampleClient ⟨"o/r", 7, none⟩ sampleRepo samplePR
      rfl rfl).1,
   (merge_pr_commit_message sampleClient ⟨"o/r", 7, none⟩ sampleRepo samplePR
      rfl rfl).2.1 rfl⟩

/-- C2 counterexample: on a client whose repository has configured default
branch "master" (which exists), a create-branch request without `base_branch`
never fetches "master" at all and fetches the literal branch "main" twice —
refuting "resolves the repository's default branch exactly once". -/
theorem create_branch_default_counterexample :
    (create_branch sampleClient ⟨"o/r", "nb", none⟩).2 =
      [.get_repo "o/r", .repo_get_branch "o/r" "main", .repo_get_branch "o/r" "main",
       .repo_create_git_ref "o/r" "refs/heads/nb" "sha-main-1"] ∧
    sampleRepo.default_branch = "master" ∧
    List.count (Event.repo_get_branch "o/r" "master")
      (create_branch sampleClient ⟨"o/r", "nb", none⟩).2 = 0 ∧
    List.count (Event.repo_get_branch "o/r" "main")
      (create_branch sampleClient ⟨"o/r", "nb", none⟩).2 = 2 := by
  refine ⟨rfl, rfl, ?_, ?_⟩ <;> decide

/-- C2 (amended): with `base_branch` supplied non-empty, the handler fetches no
branch other than the supplied one (default resolution is bypassed and the
supplied name is the base); with `base_branch` absent or empty, the handler
uses the literal branch name "main" — not the repository's configured default
branch — fetching it once to obtain its name and once more as the source of
the new reference, i.e. two branch fetches, both of "main". -/
theorem create_branch_base_resolution (c : GithubClient) (req : BranchActionRequest) :
    (∀ b, pyStrTruthy req.base_branch = some b →
      ∀ s, Event.repo_get_branch req.repo_name s ∈ (create_branch c req).2 → s = b) ∧
    (pyStrTruthy req.base_branch = none →
      ∀ repo mb, c.get_repo req.repo_name = .ok repo →
        repo.get_branch "main" = .ok mb → mb.name = "main" →
        List.count (Event.repo_get_branch req.repo_name "main") (create_branch c req).2 = 2 ∧
        ∀ s, Event.repo_get_branch req.repo_name s ∈ (create_branch c req).2 → s = "main") := by
  constructor
  · intro b hb s hs
    rcases h1 : c.get_repo req.repo_name with e | repo
    · simp [create_branch, wrapPre, GhM.bind, call, ret, h1] at hs
    · rcases h2 : repo.get_branch b with e | src
      · simp [create_branch, wrapPre, GhM.bind, call, ret, h1, hb, h2] at hs
        exact hs
      · rcases h3 : repo.create_git_ref ("refs/heads/" ++ req.branch_name) src.commit.sha
          with e | u
        · simp [create_branch, wrapPre, GhM.bind, call, ret, h1, hb, h2, h3] at hs
          exact hs
        · simp [create_branch, wrapPre, GhM.bind, call, ret, h1, hb, h2, h3] at hs
          exact hs
  · intro hb repo mb h1 h2 hname
    have h2' : repo.get_branch mb.name = .ok mb := by rw [hname]; exact h2
    rcases h3 : repo.create_git_ref ("refs/heads/" ++ req.branch_name) mb.commit.sha
      with e | u
    · constructor
      · simp [create_branch, wrapPre, GhM.bind, call, ret, h1, hb, h2, hname, h2', h3,
          List.count_cons]
      · intro s hs
        simp [create_branch, wrapPre, GhM.bind, call, ret, h1, hb, h2, hname, h2', h3] at hs
        exact hs
    · constructor
      · simp [create_branch, wrapPre, GhM.bind, call, ret, h1, hb, h2, hname, h2', h3,
          List.count_cons]
      · intro s hs
        simp [create_branch, wrapPre, GhM.bind, call, ret, h1, hb, h2, hname, h2', h3] at hs
        exact hs

/-- Witness for C2 (amended), fully instantiated: the branch fetch observed on
the supplied-"dev" run is of "dev", and the run without `base_branch` fetches
"main" twice. -/
theorem create_branch_base_resolution_witness :
    (("dev" : String) = "dev") ∧
    List.count (Event.repo_get_branch "o/r" "main")
      (create_branch sampleClient ⟨"o/r", "nb", none⟩).2 = 2 :=
  ⟨(create_branch_base_resolution sampleClient ⟨"o/r", "nb", some "dev"⟩).1 "dev" rfl "dev"
      (by decide),
   ((create_branch_base_resolution sampleClient ⟨"o/r", "nb", none⟩).2 rfl
      sampleRepo mainBranch rfl rfl rfl).1⟩

/-- C3 counterexample: `if req.org_name:` is Python truthiness, so a request
with `org_name` set to the empty string routes to the current account's
creation call, not the organization's — refuting "if org_name is set the
handler resolves the organization". -/
theorem create_repo_empty_org_counterexample :
    (create_repo sampleClient ⟨"newrepo", some "d", false, some ""⟩).2 =
      [.get_user, .user_create_repo "newrepo" "d" false] ∧
    Event.get_organization "" ∉
      (create_repo sampleClient ⟨"newrepo", some "d", false, some ""⟩).2 := by
  refine ⟨rfl, ?_⟩
  decide

/-- C3 (amended): a create-repository request with `org_name` set to a
non-empty string resolves that organization and invokes its creation
capability (and never the account's); with `org_name` absent or empty it
resolves the current account and invokes the account's creation capability
(and never an organization's); no request reaches both creation capabilities. -/
theorem create_repo_routing (c : GithubClient) (req : RepoCreateRequest) :
    (∀ o org, pyStrTruthy req.org_name = some o → c.get_organization o = .ok org →
      (create_repo c req).2 =
        [.get_organization o,
         .org_create_repo o req.name (pyStrOr req.description "") req.private_]) ∧
    (∀ o e, pyStrTruthy req.org_name = some o → c.get_organization o = .error e →
      (create_repo c req).2 = [.get_organization o]) ∧
    (∀ user, pyStrTruthy req.org_name = none → c.get_user = .ok user →
      (create_repo c req).2 =
        [.get_user, .user_create_repo req.name (pyStrOr req.description "") req.private_]) ∧
    (∀ e, pyStrTruthy req.org_name = none → c.get_user = .error e →
      (create_repo c req).2 = [.get_user]) ∧
    ¬((∃ o n d p, Event.org_create_repo o n d p ∈ (create_repo c req).2) ∧
      (∃ n d p, Event.user_create_repo n d p ∈ (create_repo c req).2)) := by
  refine ⟨?_, ?_, ?_, ?_, ?_⟩
  · intro o org ho horg
    rcases hc : org.create_repo req.name (pyStrOr req.description "") req.private_ with e | r
    · simp [create_repo, wrapPre, GhM.bind, call, ret, ho, horg, hc]
    · simp [create_repo, wrapPre, GhM.bind, call, ret, ho, horg, hc]
  · intro o e ho horg
    simp [create_repo, wrapPre, GhM.bind, call, ret, ho, horg]
  · intro user ho hu
    rcases hc : user.create_repo req.name (pyStrOr req.description "") req.private_ with e | r
    · simp [create_repo, wrapPre, GhM.bind, call, ret, ho, hu, hc]
    · simp [create_repo, wrapPre, GhM.bind, call, ret, ho, hu, hc]
  · intro e ho hu
    simp [create_repo, wrapPre, GhM.bind, call, ret, ho, hu]
  · rintro ⟨⟨o, n, d, p, horg⟩, ⟨n', d', p', huser⟩⟩
    rcases ho : pyStrTruthy req.org_name with _ | ov
    · rcases hu : c.get_user with e | user
      · simp [create_repo, wrapPre, GhM.bind, call, ret, ho, hu] at horg
      · rcases hc : user.create_repo req.name (pyStrOr req.description "") req.private_
          with e | r
        · simp [create_repo, wrapPre, GhM.bind, call, ret, ho, hu, hc] at horg
        · simp [create_repo, wrapPre, GhM.bind, call, ret, ho, hu, hc] at horg
    · rcases hg : c.get_organization ov with e | org
      · simp [create_repo, wrapPre, GhM.bind, call, ret, ho, hg] at huser
      · rcases hc : org.create_repo req.name (pyStrOr req.description "") req.private_
          with e | r
        · simp [create_repo, wrapPre, GhM.bind, call, ret, ho, hg, hc] at huser
        · simp [create_repo, wrapPre, GhM.bind, call, ret, ho, hg, hc] at huser

/-- Witness for C3 (amended): the organization route with `org_name="acme"`
and the account route with `org_name` absent, both on the sample client. -/
theorem create_repo_routing_witness :
    (create_repo sampleClient ⟨"newrepo", some "d", true, some "acme"⟩).2 =
      [.get_organization "acme", .org_create_repo "acme" "newrepo" "d" true] ∧
    (create_repo sampleClient ⟨"newrepo", some "d", false, none⟩).2 =
      [.get_user, .user_create_repo "newrepo" "d" false] :=
  ⟨(create_repo_routing sampleClient ⟨"newrepo", some "d", true, some "acme"⟩).1
      "acme" sampleOrg rfl rfl,
   (create_repo_routing sampleClient ⟨"newrepo", some "d", false, none⟩).2.2.1
      sampleUser rfl rfl⟩

/-- C7 counterexample: supplying `permission=""` does not use the supplied
value — `req.permission or "push"` collapses the empty string to "push" in
both the invite call and the success message — refuting "when permission is
supplied, the supplied value is used instead". -/
theorem add_collaborator_empty_permission_counterexample :
    (add_collaborator sampleClient ⟨"o/r", "bob", some ""⟩).2 =
      [.get_repo "o/r", .repo_add_to_collaborators "o/r" "bob" "push"] ∧
    (add_collaborator sampleClient ⟨"o/r", "bob", some ""⟩).1 =
      .ok (.obj [("message", .str "Collaborator 'bob' added with permission 'push'")]) ∧
    ("push" : String) ≠ "" := by
  refine ⟨rfl, rfl, ?_⟩
  decide

/-- C7 (amended): the invite call and the success message both carry
`req.permission or "push"`: the literal "push" when the permission field is
omitted (pydantic then materializes its default "push"), explicitly null, or
the empty string; and the supplied value itself whenever it is a non-empty
string. -/
theorem add_collaborator_permission (c : GithubClient) (req : CollaboratorRequest)
    (repo : Repo) (hr : c.get_repo req.repo_name = .ok repo) :
    (add_collaborator c req).2 =
      [.get_repo req.repo_name,
       .repo_add_to_collaborators req.repo_name req.username
         (pyStrOr req.permission "push")] ∧
    (repo.add_to_collaborators req.username (pyStrOr req.permission "push") = .ok () →
      (add_collaborator c req).1 =
        .ok (.obj [("message", .str ("Collaborator '" ++ req.username ++
          "' added with permission '" ++ pyStrOr req.permission "push" ++ "'"))])) ∧
    (req.permission = none ∨ req.permission = some "" →
      pyStrOr req.permission "push" = "push") ∧
    (∀ s, req.permission = some s → s ≠ "" → pyStrOr req.permission "push" = s) := by
  refine ⟨?_, ?_, ?_, ?_⟩
  · rcases ha : repo.add_to_collaborators req.username (pyStrOr req.permission "push")
      with e | u
    · simp [add_collaborator, wrapPre, GhM.bind, call, ret, hr, ha]
    · simp [add_collaborator, wrapPre, GhM.bind, call, ret, hr, ha]
  · intro ha
    simp [add_collaborator, wrapPre, GhM.bind, call, ret, hr, ha]
  · rintro (h | h) <;> simp [pyStrOr, pyStrTruthy, h]
  · intro s h hs
    simp [pyStrOr, pyStrTruthy, h, hs]

/-- Witness for C7 (amended): with the pydantic default permission
(`some "push"`, i.e. the field was omitted) the invite call carries "push" and
the message reports it. -/
theorem add_collaborator_permission_witness :
    (add_collaborator sampleClient ⟨"o/r", "bob", some "push"⟩).2 =
      [.get_repo "o/r", .repo_add_to_collaborators "o/r" "bob" "push"] ∧
    (add_collaborator sampleClient ⟨"o/r", "bob", some "push"⟩).1 =
      .ok (.obj [("message", .str "Collaborator 'bob' added with permission 'push'")]) :=
  ⟨(add_collaborator_permission sampleClient ⟨"o/r", "bob", some "push"⟩
      sampleRepo rfl).1,
   (add_collaborator_permission sampleClient ⟨"o/r", "bob", some "push"⟩
      sampleRepo rfl).2.1 rfl⟩

/-- C1 counterexample: a client-layer failure "boom" in the whoami handler
(`GET /github/me`) yields a 500 whose detail is
"GitHub authentication failed: boom"; this detail does not begin with
"Failed to ", so it is not of the claimed form
"Failed to <operation>: <message>". -/
theorem error_envelope_whoami_counterexample :
    (github_me failClient).1 = .error ⟨500, "GitHub authentication failed: boom"⟩ ∧
    ¬("GitHub authentication failed: boom".data.take 10 = "Failed to ".data) := by
  refine ⟨rfl, ?_⟩
  decide

/-- C1 (amended): every handler converts any client-layer failure into exactly
one HTTP 500 whose detail is the handler's literal operation prefix followed
by the underlying failure text; for every handler this prefix is
"Failed to <operation>: " — except whoami (`GET /github/me`), whose prefix is
"GitHub authentication failed: ".  The conjuncts enumerate every capability
invocation along every execution path of every route: whichever call fails
(its earlier calls having succeeded), the response is exactly the 500 carrying
that call's message.  The three handlers with no client call (`GET /`,
`GET /health`, `GET /version`) always succeed. -/
theorem error_envelope_all :
    (∀ c e, c.get_user = .error e →
      (github_me c).1 = .error ⟨500, "GitHub authentication failed: " ++ e⟩) ∧
    (∀ c rn e, c.get_repo rn = .error e →
      (list_branches c rn).1 = .error ⟨500, "Failed to list branches: " ++ e⟩) ∧
    (∀ c rn repo e, c.get_repo rn = .ok repo → repo.get_branches = .error e →
      (list_branches c rn).1 = .error ⟨500, "Failed to list branches: " ++ e⟩) ∧
    (∀ c req e, c.get_repo req.repo_name = .error e →
      (create_branch c req).1 = .error ⟨500, "Failed to create branch: " ++ e⟩) ∧
    (∀ c req repo e, pyStrTruthy req.base_branch = none →
      c.get_repo req.repo_name = .ok repo → repo.get_branch "main" = .error e →
      (create_branch c req).1 = .error ⟨500, "Failed to create branch: " ++ e⟩) ∧
    (∀ c req repo mb e, pyStrTruthy req.base_branch = none →
      c.get_repo req.repo_name = .ok repo → repo.get_branch "main" = .ok mb →
      repo.get_branch mb.name = .error e →
      (create_branch c req).1 = .error ⟨500, "Failed to create branch: " ++ e⟩) ∧
    (∀ c req repo mb src e, pyStrTruthy req.base_branch = none →
      c.get_repo req.repo_name = .ok repo → repo.get_branch "main" = .ok mb →
      repo.get_branch mb.name = .ok src →
      repo.create_git_ref ("refs/heads/" ++ req.branch_name) src.commit.sha = .error e →
      (create_branch c req).1 = .error ⟨500, "Failed to create branch: " ++ e⟩) ∧
    (∀ c req repo b e, pyStrTruthy req.base_branch = some b →
      c.get_repo req.repo_name = .ok repo → repo.get_branch b = .error e →
      (create_branch c req).1 = .error ⟨500, "Failed to create branch: " ++ e⟩) ∧
    (∀ c req repo b src e, pyStrTruthy req.base_branch = some b →
      c.get_repo req.repo_name = .ok repo → repo.get_branch b = .ok src →
      repo.create_git_ref ("refs/heads/" ++ req.branch_name) src.commit.sha = .error e →
      (create_branch c req).1 = .error ⟨500, "Failed to create branch: " ++ e⟩) ∧
    (∀ c rn e, c.get_repo rn = .error e →
      (list_pull_requests c rn).1 =
        .error ⟨500, "Failed to list pull requests: " ++ e⟩) ∧
    (∀ c rn repo e, c.get_repo rn = .ok repo → repo.get_pulls "open" = .error e →
      (list_pull_requests c rn).1 =
        .error ⟨500, "Failed to list pull requests: " ++ e⟩) ∧
    (∀ c req e, c.get_repo req.repo_name = .error e →
      (create_pull_request c req).1 =
        .error ⟨500, "Failed to create pull request: " ++ e⟩) ∧
    (∀ c req repo e, c.get_repo req.repo_name = .ok repo →
      repo.create_pull req.title (pyStrOr req.body "") req.head req.base = .error e →
      (create_pull_request c req).1 =
        .error ⟨500, "Failed to create pull request: " ++ e⟩) ∧
    (∀ c e, c.get_user = .error e →
      (list_repos c).1 = .error ⟨500, "Failed to list repositories: " ++ e⟩) ∧
    (∀ c user e, c.get_user = .ok user → user.get_repos = .error e →
      (list_repos c).1 = .error ⟨500, "Failed to list repositories: " ++ e⟩) ∧
    (∀ c rn e, c.get_repo rn = .error e →
      (get_repo c rn).1 = .error ⟨500, "Failed to get repository: " ++ e⟩) ∧
    (∀ c rn repo e, c.get_repo rn = .ok repo → repo.get_topics = .error e →
      (get_repo c rn).1 = .error ⟨500, "Failed to get repository: " ++ e⟩) ∧
    (∀ c req o e, pyStrTruthy req.org_name = some o → c.get_organization o = .error e →
      (create_repo c req).1 = .error ⟨500, "Failed to create repository: " ++ e⟩) ∧
    (∀ c req o org e, pyStrTruthy req.org_name = some o → c.get_organization o = .ok org →
      org.create_repo req.name (pyStrOr req.description "") req.private_ = .error e →
      (create_repo c req).1 = .error ⟨500, "Failed to create repository: " ++ e⟩) ∧
    (∀ c req e, pyStrTruthy req.org_name = none → c.get_user = .error e →
      (create_repo c req).1 = .error ⟨500, "Failed to create repository: " ++ e⟩) ∧
    (∀ c req user e, pyStrTruthy req.org_name = none → c.get_user = .ok user →
      user.create_repo req.name (pyStrOr req.description "") req.private_ = .error e →
      (create_repo c req).1 = .error ⟨500, "Failed to create repository: " ++ e⟩) ∧
    (∀ c rn e, c.get_repo rn = .error e →
      (list_issues c rn).1 = .error ⟨500, "Failed to list issues: " ++ e⟩) ∧
    (∀ c rn repo e, c.get_repo rn = .ok repo → repo.get_issues = .error e →
      (list_issues c rn).1 = .error ⟨500, "Failed to list issues: " ++ e⟩) ∧
    (∀ c req e, c.get_repo req.repo_name = .error e →
      (create_issue c req).1 = .error ⟨500, "Failed to create issue: " ++ e⟩) ∧
    (∀ c req repo e, c.get_repo req.repo_name = .ok repo →
      repo.create_issue req.title (pyStrOr req.body "")
        (pyListOr req.assignees) (pyListOr req.labels) = .error e →
      (create_issue c req).1 = .error ⟨500, "Failed to create issue: " ++ e⟩) ∧
    (∀ c req e, c.get_repo req.repo_name = .error e →
      (comment_issue c req).1 = .error ⟨500, "Failed to comment on issue: " ++ e⟩) ∧
    (∀ c req repo e, c.get_repo req.repo_name = .ok repo →
      repo.get_issue req.issue_number = .error e →
      (comment_issue c req).1 = .error ⟨500, "Failed to comment on issue: " ++ e⟩) ∧
    (∀ c req repo issue e, c.get_repo req.repo_name = .ok repo →
      repo.get_issue req.issue_number = .ok issue →
      issue.create_comment req.comment = .error e →
      (comment_issue c req).1 = .error ⟨500, "Failed to comment on issue: " ++ e⟩) ∧
    (∀ c req e, c.get_repo req.repo_name = .error e →
      (set_issue_state c req).1 = .error ⟨500, "Failed to set issue state: " ++ e⟩) ∧
    (∀ c req repo e, c.get_repo req.repo_name = .ok repo →
      repo.get_issue req.issue_number = .error e →
      (set_issue_state c req).1 = .error ⟨500, "Failed to set issue state: " ++ e⟩) ∧
    (∀ c req repo issue e, c.get_repo req.repo_name = .ok repo →
      repo.get_issue req.issue_number = .ok issue → issue.edit req.state = .error e →
      (set_issue_state c req).1 = .error ⟨500, "Failed to set issue state: " ++ e⟩) ∧
    (∀ c req e, c.get_repo req.repo_name = .error e →
      (merge_pr c req).1 = .error ⟨500, "Failed to merge pull request: " ++ e⟩) ∧
    (∀ c req repo e, c.get_repo req.repo_name = .ok repo →
      repo.get_pull req.pr_number = .error e →
      (merge_pr c req).1 = .error ⟨500, "Failed to merge pull request: " ++ e⟩) ∧
    (∀ c req repo pr e, c.get_repo req.repo_name = .ok repo →
      repo.get_pull req.pr_number = .ok pr →
      pr.merge (pyStrOr req.commit_message "Merged by MCP server") = .error e →
      (merge_pr c req).1 = .error ⟨500, "Failed to merge pull request: " ++ e⟩) ∧
    (∀ c req e, c.get_repo req.repo_name = .error e →
      (close_pr c req).1 = .error ⟨500, "Failed to close pull request: " ++ e⟩) ∧
    (∀ c req repo e, c.get_repo req.repo_name = .ok repo →
      repo.get_pull req.pr_number = .error e →
      (close_pr c req).1 = .error ⟨500, "Failed to close pull request: " ++ e⟩) ∧
    (∀ c req repo pr e, c.get_repo req.repo_name = .ok repo →
      repo.get_pull req.pr_number = .ok pr → pr.edit "closed" = .error e →
      (close_pr c req).1 = .error ⟨500, "Failed to close pull request: " ++ e⟩) ∧
    (∀ c req e, c.get_repo req.repo_name = .error e →
      (comment_pr c req).1 =
        .error ⟨500, "Failed to comment on pull request: " ++ e⟩) ∧
    (∀ c req repo e, c.get_repo req.repo_name = .ok repo →
      repo.get_pull req.pr_number = .error e →
      (comment_pr c req).1 =
        .error ⟨500, "Failed to comment on pull request: " ++ e⟩) ∧
    (∀ c req repo pr e, c.get_repo req.repo_name = .ok repo →
      repo.get_pull req.pr_number = .ok pr →
      pr.create_issue_comment req.comment = .error e →
      (comment_pr c req).1 =
        .error ⟨500, "Failed to comment on pull request: " ++ e⟩) ∧
    (∀ c rn pn e, c.get_repo rn = .error e →
      (list_pr_reviews c rn pn).1 =
        .error ⟨500, "Failed to list pull request reviews: " ++ e⟩) ∧
    (∀ c rn pn repo e, c.get_repo rn = .ok repo → repo.get_pull pn = .error e →
      (list_pr_reviews c rn pn).1 =
        .error ⟨500, "Failed to list pull request reviews: " ++ e⟩) ∧
    (∀ c rn pn repo pr e, c.get_repo rn = .ok repo → repo.get_pull pn = .ok pr →
      pr.get_reviews = .error e →
      (list_pr_reviews c rn pn).1 =
        .error ⟨500, "Failed to list pull request reviews: " ++ e⟩) ∧
    (∀ c req e, c.get_repo req.repo_name = .error e →
      (delete_branch c req).1 = .error ⟨500, "Failed to delete branch: " ++ e⟩) ∧
    (∀ c req repo e, c.get_repo req.repo_name = .ok repo →
      repo.get_git_ref ("heads/" ++ req.branch_name) = .error e →
      (delete_branch c req).1 = .error ⟨500, "Failed to delete branch: " ++ e⟩) ∧
    (∀ c req repo ref e, c.get_repo req.repo_name = .ok repo →
      repo.get_git_ref ("heads/" ++ req.branch_name) = .ok ref →
      ref.delete = .error e →
      (delete_branch c req).1 = .error ⟨500, "Failed to delete branch: " ++ e⟩) ∧
    (∀ c req e, c.get_repo req.repo_name = .error e →
      (compare_branches c req).1 =
        .error ⟨500, "Failed to compare branches: " ++ e⟩) ∧
    (∀ c req repo e, c.get_repo req.repo_name = .ok repo →
      repo.compare req.base req.head = .error e →
      (compare_branches c req).1 =
        .error ⟨500, "Failed to compare branches: " ++ e⟩) ∧
    (∀ c rn e, c.get_repo rn = .error e →
      (list_webhooks c rn).1 = .error ⟨500, "Failed to list webhooks: " ++ e⟩) ∧
    (∀ c rn repo e, c.get_repo rn = .ok repo → repo.get_hooks = .error e →
      (list_webhooks c rn).1 = .error ⟨500, "Failed to list webhooks: " ++ e⟩) ∧
    (∀ c rn e, c.get_repo rn = .error e →
      (list_collaborators c rn).1 =
        .error ⟨500, "Failed to list collaborators: " ++ e⟩) ∧
    (∀ c rn repo e, c.get_repo rn = .ok repo → repo.get_collaborators = .error e →
      (list_collaborators c rn).1 =
        .error ⟨500, "Failed to list collaborators: " ++ e⟩) ∧
    (∀ c req e, c.get_repo req.repo_name = .error e →
      (add_collaborator c req).1 =
        .error ⟨500, "Failed to add collaborator: " ++ e⟩) ∧
    (∀ c req repo e, c.get_repo req.repo_name = .ok repo →
      repo.add_to_collaborators req.username (pyStrOr req.permission "push") = .error e →
      (add_collaborator c req).1 =
        .error ⟨500, "Failed to add collaborator: " ++ e⟩) ∧
    (∀ c req e, c.get_repo req.repo_name = .error e →
      (remove_collaborator c req).1 =
        .error ⟨500, "Failed to remove collaborator: " ++ e⟩) ∧
    (∀ c req repo e, c.get_repo req.repo_name = .ok repo →
      repo.remove_from_collaborators req.username = .error e →
      (remove_collaborator c req).1 =
        .error ⟨500, "Failed to remove collaborator: " ++ e⟩) ∧
    (∀ c og e, c.get_organization og = .error e →
      (list_teams c og).1 = .error ⟨500, "Failed to list teams: " ++ e⟩) ∧
    (∀ c og org e, c.get_organization og = .ok org → org.get_teams = .error e →
      (list_teams c og).1 = .error ⟨500, "Failed to list teams: " ++ e⟩) ∧
    (∀ c e, c.get_rate_limit = .error e →
      (rate_limit c).1 = .error ⟨500, "Failed to get rate limit: " ++ e⟩) ∧
    (∃ v, read_root.1 = .ok v) ∧
    (∃ v, health_check.1 = .ok v) ∧
    (∃ v, version.1 = .ok v) := by
  refine ⟨?_, ?_, ?_, ?_, ?_, ?_, ?_, ?_, ?_, ?_, ?_, ?_, ?_, ?_, ?_, ?_, ?_, ?_, ?_,
    ?_, ?_, ?_, ?_, ?_, ?_, ?_, ?_, ?_, ?_, ?_, ?_, ?_, ?_, ?_, ?_, ?_, ?_, ?_, ?_,
    ?_, ?_, ?_, ?_, ?_, ?_, ?_, ?_, ?_, ?_, ?_, ?_, ?_, ?_, ?_, ?_, ?_, ?_, ?_, ?_,
    ⟨_, rfl⟩, ⟨_, rfl⟩, ⟨_, rfl⟩⟩
  all_goals intros
  all_goals simp_all [github_me, list_branches, create_branch, list_pull_requests,
    create_pull_request, list_repos, get_repo, create_repo, list_issues, create_issue,
    comment_issue, set_issue_state, merge_pr, close_pr, comment_pr, list_pr_reviews,
    delete_branch, compare_branches, list_webhooks, list_collaborators,
    add_collaborator, remove_collaborator, list_teams, rate_limit,
    wrapPre, GhM.bind, call, ret]

/-- Witness for C1 (amended): concrete client-layer failures are converted
into the 500 envelope carrying the handler prefix and the failure text, for
whoami and for create-branch. -/
theorem error_envelope_all_witness :
    (github_me failClient).1 = .error ⟨500, "GitHub authentication failed: boom"⟩ ∧
    (create_branch failClient ⟨"o/r", "nb", none⟩).1 =
      .error ⟨500, "Failed to create branch: boom"⟩ :=
  ⟨error_envelope_all.1 failClient "boom" rfl,
   error_envelope_all.2.2.2.1 failClient ⟨"o/r", "nb", none⟩ "boom" rfl⟩

-- ## Write-count lemmas for the single-write invariant

theorem writeCount_append (t1 t2 : List Event) :
    writeCount (t1 ++ t2) = writeCount t1 + writeCount t2 := by
  simp [writeCount, List.filter_append]

/-- A handler-body fragment that issues no state-changing call. -/
def AllReads {α : Type} (x : GhM α) : Prop := ∀ e ∈ x.2, Event.isWrite e = false

theorem allReads_call {α : Type} (e : Event) (r : Except String α)
    (he : Event.isWrite e = false) : AllReads (call e r) := by
  intro ev hev
  simp [call] at hev
  subst hev
  exact he

theorem allReads_ret {α : Type} (a : α) : AllReads (ret a) := by
  intro e he
  simp [ret] at he

theorem allReads_bind {α β : Type} {x : GhM α} {f : α → GhM β}
    (hx : AllReads x) (hf : ∀ a, AllReads (f a)) : AllReads (GhM.bind x f) := by
  rcases x with ⟨r, t⟩
  cases r with
  | error e => exact hx
  | ok a =>
    intro ev hev
    have hfa := hf a
    rcases hfae : f a with ⟨r2, t2⟩
    rw [hfae] at hfa
    simp [GhM.bind, hfae] at hev
    rcases hev with h | h
    · exact hx ev h
    · exact hfa ev h

theorem writeCount_eq_zero_of_allReads {α : Type} {x : GhM α} (hx : AllReads x) :
    writeCount x.2 = 0 := by
  have h : x.2.filter Event.isWrite = [] := by
    rw [List.filter_eq_nil_iff]
    intro a ha
    simp [hx a ha]
  simp [writeCount, h]

/-- A handler-body fragment that issues at most one state-changing call, and
exactly one whenever it succeeds. -/
def WCle1 {α : Type} (x : GhM α) : Prop :=
  writeCount x.2 ≤ 1 ∧ ∀ a, x.1 = .ok a → writeCount x.2 = 1

theorem wcle1_call_write {α : Type} (e : Event) (r : Except String α)
    (he : Event.isWrite e = true) : WCle1 (call e r) := by
  constructor
  · simp [call, writeCount, List.filter, he]
  · intro a _
    simp [call, writeCount, List.filter, he]

theorem wcle1_bind_reads {α β : Type} {x : GhM α} {f : α → GhM β}
    (hx : AllReads x) (hf : ∀ a, WCle1 (f a)) : WCle1 (GhM.bind x f) := by
  rcases x with ⟨r, t⟩
  have ht : writeCount t = 0 := writeCount_eq_zero_of_allReads hx
  cases r with
  | error e =>
    constructor
    · simp [GhM.bind, ht]
    · intro a ha
      simp [GhM.bind] at ha
  | ok a =>
    rcases hfa : f a with ⟨r2, t2⟩
    have hf2 := hf a
    rw [hfa] at hf2
    constructor
    · simp [GhM.bind, hfa, writeCount_append, ht]
      exact hf2.1
    · intro b hb
      simp [GhM.bind, hfa] at hb
      simp [GhM.bind, hfa, writeCount_append, ht]
      exact hf2.2 b hb

theorem wcle1_bind_last_reads {α β : Type} {x : GhM α} {f : α → GhM β}
    (hx : WCle1 x) (hf : ∀ a, AllReads (f a)) : WCle1 (GhM.bind x f) := by
  rcases x with ⟨r, t⟩
  cases r with
  | error e =>
    constructor
    · exact hx.1
    · intro a ha
      simp [GhM.bind] at ha
  | ok a =>
    rcases hfa : f a with ⟨r2, t2⟩
    have h0 : writeCount t2 = 0 := by
      have h := writeCount_eq_zero_of_allReads (hf a)
      rw [hfa] at h
      exact h
    have h1 : writeCount t = 1 := hx.2 a rfl
    constructor
    · simp [GhM.bind, hfa, writeCount_append, h0, h1]
    · intro b hb
      simp [GhM.bind, hfa, writeCount_append, h0, h1]

theorem wrapPre_noWrites (p : String) (x : GhM JVal) (hx : AllReads x) :
    writeCount (wrapPre p x).2 = 0 := by
  rcases x with ⟨r, t⟩
  cases r <;> exact writeCount_eq_zero_of_allReads hx

theorem wrapPre_wcle1 (p : String) (x : GhM JVal) (hx : WCle1 x) :
    writeCount (wrapPre p x).2 ≤ 1 ∧
      ((∃ v, (wrapPre p x).1 = .ok v) → writeCount (wrapPre p x).2 = 1) := by
  rcases x with ⟨r, t⟩
  cases r with
  | ok v => exact ⟨hx.1, fun _ => hx.2 v rfl⟩
  | error e =>
    refine ⟨hx.1, ?_⟩
    rintro ⟨v, hv⟩
    simp [wrapPre] at hv

/-- C8 counterexample: a successful comment-on-issue request issues three
outbound calls (resolve repo, resolve issue, create comment), not exactly
one — refuting "exactly one outbound call is issued against the external
API; no operation spans multiple external calls". -/
theorem single_outbound_call_counterexample :
    (comment_issue sampleClient ⟨"o/r", 5, "hi"⟩).2 =
      [.get_repo "o/r", .repo_get_issue "o/r" 5, .issue_create_comment "o/r" 5 "hi"] ∧
    (comment_issue sampleClient ⟨"o/r", 5, "hi"⟩).1 =
      .ok (.obj [("message", .str "Comment added"),
                 ("url", .str "http://example/comment/1")]) ∧
    (comment_issue sampleClient ⟨"o/r", 5, "hi"⟩).2.length ≠ 1 := by
  refine ⟨rfl, rfl, ?_⟩
  decide

/-- C8 (amended): every request issues at most one state-changing outbound
call (a create/edit/merge/delete/invite); a read endpoint issues none, and a
mutating endpoint that succeeds issued exactly one, preceded only by
read/resolution calls — so no operation needs transactional rollback.  (The
original "exactly one outbound call" is refuted by the resolution reads.) -/
theorem single_write_per_request :
    (∀ c, writeCount (github_me c).2 = 0) ∧
    (∀ c rn, writeCount (list_branches c rn).2 = 0) ∧
    (∀ c req, writeCount (create_branch c req).2 ≤ 1 ∧
      ((∃ v, (create_branch c req).1 = .ok v) →
        writeCount (create_branch c req).2 = 1)) ∧
    (∀ c rn, writeCount (list_pull_requests c rn).2 = 0) ∧
    (∀ c req, writeCount (create_pull_request c req).2 ≤ 1 ∧
      ((∃ v, (create_pull_request c req).1 = .ok v) →
        writeCount (create_pull_request c req).2 = 1)) ∧
    (∀ c, writeCount (list_repos c).2 = 0) ∧
    (∀ c rn, writeCount (get_repo c rn).2 = 0) ∧
    (∀ c req, writeCount (create_repo c req).2 ≤ 1 ∧
      ((∃ v, (create_repo c req).1 = .ok v) → writeCount (create_repo c req).2 = 1)) ∧
    (∀ c rn, writeCount (list_issues c rn).2 = 0) ∧
    (∀ c req, writeCount (create_issue c req).2 ≤ 1 ∧
      ((∃ v, (create_issue c req).1 = .ok v) → writeCount (create_issue c req).2 = 1)) ∧
    (∀ c req, writeCount (comment_issue c req).2 ≤ 1 ∧
      ((∃ v, (comment_issue c req).1 = .ok v) →
        writeCount (comment_issue c req).2 = 1)) ∧
    (∀ c req, writeCount (set_issue_state c req).2 ≤ 1 ∧
      ((∃ v, (set_issue_state c req).1 = .ok v) →
        writeCount (set_issue_state c req).2 = 1)) ∧
    (∀ c req, writeCount (merge_pr c req).2 ≤ 1 ∧
      ((∃ v, (merge_pr c req).1 = .ok v) → writeCount (merge_pr c req).2 = 1)) ∧
    (∀ c req, writeCount (close_pr c req).2 ≤ 1 ∧
      ((∃ v, (close_pr c req).1 = .ok v) → writeCount (close_pr c req).2 = 1)) ∧
    (∀ c req, writeCount (comment_pr c req).2 ≤ 1 ∧
      ((∃ v, (comment_pr c req).1 = .ok v) → writeCount (comment_pr c req).2 = 1)) ∧
    (∀ c rn pn, writeCount (list_pr_reviews c rn pn).2 = 0) ∧
    (∀ c req, writeCount (delete_branch c req).2 ≤ 1 ∧
      ((∃ v, (delete_branch c req).1 = .ok v) →
        writeCount (delete_branch c req).2 = 1)) ∧
    (∀ c req, writeCount (compare_branches c req).2 = 0) ∧
    (∀ c rn, writeCount (list_webhooks c rn).2 = 0) ∧
    (∀ c rn, writeCount (list_collaborators c rn).2 = 0) ∧
    (∀ c req, writeCount (add_collaborator c req).2 ≤ 1 ∧
      ((∃ v, (add_collaborator c req).1 = .ok v) →
        writeCount (add_collaborator c req).2 = 1)) ∧
    (∀ c req, writeCount (remove_collaborator c req).2 ≤ 1 ∧
      ((∃ v, (remove_collaborator c req).1 = .ok v) →
        writeCount (remove_collaborator c req).2 = 1)) ∧
    (∀ c og, writeCount (list_teams c og).2 = 0) ∧
    (∀ c, writeCount (rate_limit c).2 = 0) ∧
    writeCount read_root.2 = 0 ∧
    writeCount health_check.2 = 0 ∧
    writeCount version.2 = 0 := by
  refine ⟨?_, ?_, ?_, ?_, ?_, ?_, ?_, ?_, ?_, ?_, ?_, ?_, ?_, ?_, ?_, ?_, ?_, ?_, ?_,
    ?_, ?_, ?_, ?_, ?_, rfl, rfl, rfl⟩
  · intro c
    exact wrapPre_noWrites _ _
      (allReads_bind (allReads_call _ _ rfl) (fun u => allReads_ret _))
  · intro c rn
    exact wrapPre_noWrites _ _
      (allReads_bind (allReads_call _ _ rfl) (fun repo =>
        allReads_bind (allReads_call _ _ rfl) (fun bs => allReads_ret _)))
  · intro c req
    refine wrapPre_wcle1 _ _ ?_
    refine wcle1_bind_reads (allReads_call _ _ rfl) (fun repo => ?_)
    refine wcle1_bind_reads ?_ (fun base => ?_)
    · rcases h : pyStrTruthy req.base_branch with _ | b
      · simp only [h]
        exact allReads_bind (allReads_call _ _ rfl) (fun mb => allReads_ret _)
      · simp only [h]
        exact allReads_ret _
    · refine wcle1_bind_reads (allReads_call _ _ rfl) (fun source => ?_)
      exact wcle1_bind_last_reads (wcle1_call_write _ _ rfl) (fun _ => allReads_ret _)
  · intro c rn
    exact wrapPre_noWrites _ _
      (allReads_bind (allReads_call _ _ rfl) (fun repo =>
        allReads_bind (allReads_call _ _ rfl) (fun ps => allReads_ret _)))
  · intro c req
    refine wrapPre_wcle1 _ _ ?_
    refine wcle1_bind_reads (allReads_call _ _ rfl) (fun repo => ?_)
    exact wcle1_bind_last_reads (wcle1_call_write _ _ rfl) (fun pr => allReads_ret _)
  · intro c
    exact wrapPre_noWrites _ _
      (allReads_bind (allReads_call _ _ rfl) (fun u =>
        allReads_bind (allReads_call _ _ rfl) (fun rs => allReads_ret _)))
  · intro c rn
    exact wrapPre_noWrites _ _
      (allReads_bind (allReads_call _ _ rfl) (fun repo =>
        allReads_bind (allReads_call _ _ rfl) (fun ts => allReads_ret _)))
  · intro c req
    refine wrapPre_wcle1 _ _ ?_
    refine wcle1_bind_last_reads ?_ (fun repo => allReads_ret _)
    rcases h : pyStrTruthy req.org_name with _ | o
    · simp only [h]
      exact wcle1_bind_reads (allReads_call _ _ rfl) (fun u => wcle1_call_write _ _ rfl)
    · simp only [h]
      exact wcle1_bind_reads (allReads_call _ _ rfl) (fun og => wcle1_call_write _ _ rfl)
  · intro c rn
    exact wrapPre_noWrites _ _
      (allReads_bind (allReads_call _ _ rfl) (fun repo =>
        allReads_bind (allReads_call _ _ rfl) (fun xs => allReads_ret _)))
  · intro c req
    refine wrapPre_wcle1 _ _ ?_
    refine wcle1_bind_reads (allReads_call _ _ rfl) (fun repo => ?_)
    exact wcle1_bind_last_reads (wcle1_call_write _ _ rfl) (fun i => allReads_ret _)
  · intro c req
    refine wrapPre_wcle1 _ _ ?_
    refine wcle1_bind_reads (allReads_call _ _ rfl) (fun repo => ?_)
    refine wcle1_bind_reads (allReads_call _ _ rfl) (fun issue => ?_)
    exact wcle1_bind_last_reads (wcle1_call_write _ _ rfl) (fun cm => allReads_ret _)
  · intro c req
    refine wrapPre_wcle1 _ _ ?_
    refine wcle1_bind_reads (allReads_call _ _ rfl) (fun repo => ?_)
    refine wcle1_bind_reads (allReads_call _ _ rfl) (fun issue => ?_)
    exact wcle1_bind_last_reads (wcle1_call_write _ _ rfl) (fun u => allReads_ret _)
  · intro c req
    refine wrapPre_wcle1 _ _ ?_
    refine wcle1_bind_reads (allReads_call _ _ rfl) (fun repo => ?_)
    refine wcle1_bind_reads (allReads_call _ _ rfl) (fun pr => ?_)
    exact wcle1_bind_last_reads (wcle1_call_write _ _ rfl) (fun u => allReads_ret _)
  · intro c req
    refine wrapPre_wcle1 _ _ ?_
    refine wcle1_bind_reads (allReads_call _ _ rfl) (fun repo => ?_)
    refine wcle1_bind_reads (allReads_call _ _ rfl) (fun pr => ?_)
    exact wcle1_bind_last_reads (wcle1_call_write _ _ rfl) (fun u => allReads_ret _)
  · intro c req
    refine wrapPre_wcle1 _ _ ?_
    refine wcle1_bind_reads (allReads_call _ _ rfl) (fun repo => ?_)
    refine wcle1_bind_reads (allReads_call _ _ rfl) (fun pr => ?_)
    exact wcle1_bind_last_reads (wcle1_call_write _ _ rfl) (fun cm => allReads_ret _)
  · intro c rn pn
    exact wrapPre_noWrites _ _
      (allReads_bind (allReads_call _ _ rfl) (fun repo =>
        allReads_bind (allReads_call _ _ rfl) (fun pr =>
          allReads_bind (allReads_call _ _ rfl) (fun rs => allReads_ret _))))
  · intro c req
    refine wrapPre_wcle1 _ _ ?_
    refine wcle1_bind_reads (allReads_call _ _ rfl) (fun repo => ?_)
    refine wcle1_bind_reads (allReads_call _ _ rfl) (fun ref => ?_)
    exact wcle1_bind_last_reads (wcle1_call_write _ _ rfl) (fun u => allReads_ret _)
  · intro c req
    exact wrapPre_noWrites _ _
      (allReads_bind (allReads_call _ _ rfl) (fun repo =>
        allReads_bind (allReads_call _ _ rfl) (fun cmp => allReads_ret _)))
  · intro c rn
    exact wrapPre_noWrites _ _
      (allReads_bind (allReads_call _ _ rfl) (fun repo =>
        allReads_bind (allReads_call _ _ rfl) (fun hs => allReads_ret _)))
  · intro c rn
    exact wrapPre_noWrites _ _
      (allReads_bind (allReads_call _ _ rfl) (fun repo =>
        allReads_bind (allReads_call _ _ rfl) (fun us => allReads_ret _)))
  · intro c req
    refine wrapPre_wcle1 _ _ ?_
    refine wcle1_bind_reads (allReads_call _ _ rfl) (fun repo => ?_)
    exact wcle1_bind_last_reads (wcle1_call_write _ _ rfl) (fun u => allReads_ret _)
  · intro c req
    refine wrapPre_wcle1 _ _ ?_
    refine wcle1_bind_reads (allReads_call _ _ rfl) (fun repo => ?_)
    exact wcle1_bind_last_reads (wcle1_call_write _ _ rfl) (fun u => allReads_ret _)
  · intro c og
    exact wrapPre_noWrites _ _
      (allReads_bind (allReads_call _ _ rfl) (fun org =>
        allReads_bind (allReads_call _ _ rfl) (fun ts => allReads_ret _)))
  · intro c
    exact wrapPre_noWrites _ _
      (allReads_bind (allReads_call _ _ rfl) (fun rate => allReads_ret _))

/-- Witness for C8 (amended): the successful comment-issue run issued exactly
one state-changing call. -/
theorem single_write_per_request_witness :
    writeCount (comment_issue sampleClient ⟨"o/r", 5, "hi"⟩).2 = 1 :=
  (single_write_per_request.2.2.2.2.2.2.2.2.2.2.1 sampleClient ⟨"o/r", 5, "hi"⟩).2
    ⟨.obj [("message", .str "Comment added"),
           ("url", .str "http://example/comment/1")], rfl⟩
